import Mathlib

/-!
Shallow embedding of the PDF-maker application core (src/App.js, with the
variant file src/unnamed/part_000 where the two differ).

The app keeps three pieces of React state: `selectedImages` (ordered list of
picked gallery assets), `pdfName` (the user-entered document name) and
`isGenerating` (the re-entrancy flag).  The operations embedded here are
`removeImage`, `generatePDF` and `savePDF` (both variants), plus the
`disabled` guard of the Generate button, which is the only place the
`isGenerating` flag is consulted before a `generatePDF` call.

External services (FileSystem.readAsStringAsync, Print.printToFileAsync,
MediaLibrary, Sharing) are modelled as oracles in an `Env` record; every call
the code makes to one of them is recorded as an `Event` so that theorems can
speak about which calls happened and in which order.
-/

/-- A gallery image reference; the code only ever uses its `uri`. -/
structure ImageAsset where
  uri : String
deriving DecidableEq, Repr

/-- Outcome of `FileSystem.readAsStringAsync(img.uri, {encoding: Base64})`:
either it returns a (possibly empty) base64 string or it throws. -/
inductive ReadResult where
  | ok (base64 : String)
  | err (msg : String)
deriving DecidableEq, Repr

/-- True when a read returned rather than threw. -/
def ReadResult.isOk : ReadResult → Bool
  | .ok _ => true
  | .err _ => false

/-- The string a successful read produced (`""` for a thrown read; only used
under an `isOk` hypothesis). -/
def ReadResult.b64 : ReadResult → String
  | .ok b => b
  | .err _ => ""

/-- `Platform.OS` of React Native, restricted to the two values the code
branches on. -/
inductive OS where
  | android
  | ios
deriving DecidableEq, Repr

/-- Oracles for every external service the code calls. -/
structure Env where
  /-- `FileSystem.readAsStringAsync` on a given asset. -/
  reader : ImageAsset → ReadResult
  /-- `Print.printToFileAsync({html})`: the temp file uri, or a thrown error. -/
  renderer : String → Except String String
  /-- `Platform.OS`. -/
  os : OS
  /-- `granted` of `MediaLibrary.requestPermissionsAsync()` inside `savePDF`. -/
  mediaPermGranted : Bool
  /-- `Sharing.isAvailableAsync()`. -/
  sharingAvailable : Bool
  /-- `FileSystem.documentDirectory`. -/
  documentDirectory : String
  /-- `some msg` when `FileSystem.moveAsync` throws with message `msg`. -/
  moveFail : Option String
  /-- `some msg` when `FileSystem.copyAsync` throws with message `msg`. -/
  copyFail : Option String

/-- The React state triple of `App`. -/
structure AppState where
  selectedImages : List ImageAsset
  pdfName : String
  isGenerating : Bool
deriving DecidableEq, Repr

/-- One observable action of the code: a call into an external service, an
`Alert.alert`, or a write to the `isGenerating` flag. -/
inductive Event where
  | readCall (img : ImageAsset)
  | renderCall (html : String)
  | alert (title msg : String)
  | setGenerating (b : Bool)
  | requestMediaPerm
  | createAsset (uri : String)
  | createAlbum (album : String) (assetUri : String)
  | moveFile (src dst : String)
  | copyFile (src dst : String)
  | shareCall (uri : String) (mimeType : Option String)
deriving DecidableEq, Repr

/-- True exactly on `Event.renderCall`. -/
def Event.isRender : Event → Bool
  | .renderCall _ => true
  | _ => false

/-- True exactly on `Event.alert`. -/
def Event.isAlert : Event → Bool
  | .alert _ _ => true
  | _ => false

/-- True exactly on `Event.shareCall`. -/
def Event.isShare : Event → Bool
  | .shareCall _ _ => true
  | _ => false

/-- True exactly on `Event.readCall`. -/
def Event.isRead : Event → Bool
  | .readCall _ => true
  | _ => false

/-- JS `String.prototype.trim()`: strip leading and trailing whitespace.
Modelled over the character list so that it is kernel-computable (Lean's
built-in `String.trim` computes the same strings but is defined by
well-founded recursion on byte positions). -/
def jsTrim (s : String) : String :=
  ⟨((s.data.dropWhile Char.isWhitespace).reverse.dropWhile Char.isWhitespace).reverse⟩

/-- `removeImage` (App.js line 58-60, part_000 line 87-89):
`selectedImages.filter((_, i) => i !== index)`. -/
def removeImage (selectedImages : List ImageAsset) (index : Nat) : List ImageAsset :=
  ((selectedImages.enum.filter (fun p => p.1 != index)).map Prod.snd)

/-- The per-image template literal of `generatePDF` (App.js line 110-112):
an embedded-image block carrying one image's base64 bytes. -/
def imgTag (base64 : String) : String :=
  "<img src=\"data:image/jpeg;base64," ++ base64 ++ "\" style=\"width:100%;display:block;\"/>"

/-- `images.map(... imgTag ...).join('')` (App.js line 110-112). -/
def imagesHtml (bs : List String) : String :=
  String.join (bs.map imgTag)

/-- The `html` template literal of `generatePDF` (App.js line 114-125),
with the image blocks spliced into the body. -/
def pageHtml (body : String) : String :=
  "\n<!DOCTYPE html>\n<html>\n<head>\n  <style>\n    * \x7b margin: 0; padding: 0; box-sizing: border-box; \x7d\n    body \x7b margin: 0; padding: 0; \x7d\n    img \x7b width: 100%; display: block; \x7d\n  </style>\n</head>\n<body>" ++ body ++ "</body>\n</html>"

/-- The alert message of the read-failure branch (App.js line 95), naming the
ordinal position `i + 1` of the failed image. -/
def readFailMsg (i : Nat) : String :=
  "Could not read image " ++ toString (i + 1) ++ ". It may be stored in iCloud. Please download it first."

/-- The read loop of `generatePDF` (App.js line 77-99): visits the selection in
order starting at absolute position `k`; on the first thrown read it aborts
with that read's absolute position; otherwise it collects the base64 strings,
skipping (with only a console message) the ones that came back empty. -/
def readLoop (reader : ImageAsset → ReadResult) : List ImageAsset → Nat → List Event × Except Nat (List String)
  | [], _ => ([], .ok [])
  | img :: rest, k =>
    match reader img with
    | .err _ => ([Event.readCall img], .error k)
    | .ok b =>
      let (evs, r) := readLoop reader rest (k + 1)
      match r with
      | .error j => (Event.readCall img :: evs, .error j)
      | .ok bs => (Event.readCall img :: evs, .ok (if 0 < b.length then b :: bs else bs))

/-- `savePDF` of src/App.js (line 145-170).  Android: request the media
permission, and when granted create an asset from the rendered file's uri and
add it to the "Download" album (silently doing nothing when not granted);
iOS: move the file to `documentDirectory + trim(name) + ".pdf"` and, when the
share sheet is available, share it with no options.  The success callbacks
reset the selection and the name.  Any thrown error is caught and alerted as
"Save Error". -/
def savePDF_v1 (env : Env) (st : AppState) (uri : String) : AppState × List Event :=
  let fileName := jsTrim st.pdfName ++ ".pdf"
  match env.os with
  | .android =>
    if env.mediaPermGranted then
      ({ st with selectedImages := [], pdfName := "" },
       [Event.requestMediaPerm, Event.createAsset uri, Event.createAlbum "Download" uri,
        Event.alert "Success!" ("PDF saved to Downloads: " ++ fileName)])
    else
      (st, [Event.requestMediaPerm])
  | .ios =>
    let newUri := env.documentDirectory ++ fileName
    match env.moveFail with
    | some msg => (st, [Event.moveFile uri newUri, Event.alert "Save Error" msg])
    | none =>
      if env.sharingAvailable then
        ({ st with selectedImages := [], pdfName := "" },
         [Event.moveFile uri newUri, Event.shareCall newUri none])
      else
        (st, [Event.moveFile uri newUri])

/-- `savePDF` of src/unnamed/part_000 (line 186-235).  On every platform:
copy the rendered file to `documentDirectory + trim(name) + ".pdf"`, then
share it with an `application/pdf` mime-type hint when the share sheet is
available, else alert that the PDF was created; either way reset the
selection and the name.  A thrown copy is caught and alerted as
"❌ Save Error". -/
def savePDF_v2 (env : Env) (st : AppState) (uri : String) : AppState × List Event :=
  let fileName := jsTrim st.pdfName ++ ".pdf"
  let newUri := env.documentDirectory ++ fileName
  match env.copyFail with
  | some msg => (st, [Event.copyFile uri newUri, Event.alert "❌ Save Error" msg])
  | none =>
    if env.sharingAvailable then
      ({ st with selectedImages := [], pdfName := "" },
       [Event.copyFile uri newUri, Event.shareCall newUri (some "application/pdf"),
        Event.alert "✅ Success!" ("PDF \"" ++ fileName ++ "\" created! You can now save it to your device.")])
    else
      ({ st with selectedImages := [], pdfName := "" },
       [Event.copyFile uri newUri, Event.alert "✅ PDF Created!" ("PDF saved as: " ++ fileName)])

/-- `generatePDF` (App.js line 62-143), parameterised by the save routine so
that both variant files share one embedding of the identical pipeline:
guards (empty selection, empty trimmed name), set `isGenerating`, read loop,
empty-result check, html assembly, `Print.printToFileAsync`, save, and the
`finally` that clears `isGenerating` on every exit path past the guards. -/
def generatePDFWith (save : Env → AppState → String → AppState × List Event)
    (env : Env) (st : AppState) : AppState × List Event :=
  if st.selectedImages.length = 0 then
    (st, [Event.alert "No Images" "Please select at least one image."])
  else if jsTrim st.pdfName = "" then
    (st, [Event.alert "PDF Name Required" "Please enter a name for your PDF."])
  else
    let (readEvs, r) := readLoop env.reader st.selectedImages 0
    match r with
    | .error i =>
      ({ st with isGenerating := false },
       Event.setGenerating true :: readEvs
         ++ [Event.alert "Error" (readFailMsg i), Event.setGenerating false])
    | .ok images =>
      if images.length = 0 then
        ({ st with isGenerating := false },
         Event.setGenerating true :: readEvs
           ++ [Event.alert "Error" "No images could be processed.", Event.setGenerating false])
      else
        let html := pageHtml (imagesHtml images)
        match env.renderer html with
        | .error msg =>
          ({ st with isGenerating := false },
           Event.setGenerating true :: readEvs
             ++ [Event.renderCall html,
                 Event.alert "Error" ("Failed to generate PDF: " ++ msg),
                 Event.setGenerating false])
        | .ok uri =>
          let (st2, saveEvs) := save env { st with isGenerating := true } uri
          ({ st2 with isGenerating := false },
           Event.setGenerating true :: readEvs
             ++ [Event.renderCall html] ++ saveEvs ++ [Event.setGenerating false])

/-- `generatePDF` of src/App.js, whose save routine is `savePDF_v1`. -/
def generatePDF (env : Env) (st : AppState) : AppState × List Event :=
  generatePDFWith savePDF_v1 env st

/-- `generatePDF` of src/unnamed/part_000, whose save routine is `savePDF_v2`
(its alert titles carry emoji prefixes but the logic is identical). -/
def generatePDF2 (env : Env) (st : AppState) : AppState × List Event :=
  generatePDFWith savePDF_v2 env st

/-- The `disabled` prop of the Generate button (App.js line 241):
`selectedImages.length === 0 || !pdfName.trim() || isGenerating`. -/
def generateButtonDisabled (st : AppState) : Bool :=
  st.selectedImages.length == 0 || jsTrim st.pdfName == "" || st.isGenerating

/-- Pressing the Generate button: a disabled `TouchableOpacity` ignores the
press, otherwise `generatePDF` runs.  This is the only path by which the app
invokes `generatePDF`. -/
def onGeneratePress (env : Env) (st : AppState) : AppState × List Event :=
  if generateButtonDisabled st then (st, []) else generatePDF env st

/-! ### Helper lemmas about the embedded operations -/

/-- Every entry of `List.enumFrom k l` carries an index at least `k`, so
filtering out an index below `k` keeps the whole list. -/
lemma enumFrom_filter_lt (l : List ImageAsset) :
    ∀ (k m : Nat), m < k →
      (List.enumFrom k l).filter (fun p => p.1 != m) = List.enumFrom k l := by
  induction l with
  | nil => intro k m _; rfl
  | cons a l ih =>
    intro k m hm
    have hk : (k != m) = true := by simp only [bne_iff_ne]; omega
    simp only [List.enumFrom, List.filter_cons, hk, if_true]
    rw [ih (k + 1) m (Nat.lt_succ_of_lt hm)]

/-- Filtering index `k + i` out of `List.enumFrom k l` and dropping the
indices is `List.eraseIdx l i`. -/
lemma enumFrom_filter_eraseIdx (l : List ImageAsset) :
    ∀ (k i : Nat),
      ((List.enumFrom k l).filter (fun p => p.1 != (k + i))).map Prod.snd
        = l.eraseIdx i := by
  induction l with
  | nil => intro k i; rfl
  | cons a l ih =>
    intro k i
    cases i with
    | zero =>
      have hk : (k != (k + 0)) = false := by simp
      simp only [List.enumFrom, List.filter_cons, hk, Bool.false_eq_true, if_false,
        List.eraseIdx_cons_zero]
      rw [enumFrom_filter_lt l (k + 1) (k + 0) (by omega), List.enumFrom_map_snd]
    | succ j =>
      have hk : (k != (k + (j + 1))) = true := by simp only [bne_iff_ne]; omega
      have hkj : k + 1 + j = k + (j + 1) := by omega
      simp only [List.enumFrom, List.filter_cons, hk, if_true, List.map_cons,
        List.eraseIdx_cons_succ]
      rw [← hkj, ih (k + 1) j]

/-- `removeImage` is exactly removal of the entry at the given position. -/
lemma removeImage_eq_eraseIdx (l : List ImageAsset) (i : Nat) :
    removeImage l i = l.eraseIdx i := by
  have h := enumFrom_filter_eraseIdx l 0 i
  simpa [removeImage, List.enum] using h

/-! ### Claim theorems -/

/-- A concrete environment used by the witness theorems: every oracle
succeeds. -/
def envW : Env :=
  { reader := fun img => .ok ("B64" ++ img.uri),
    renderer := fun _ => .ok "file:///tmp/print123.pdf",
    os := .ios,
    mediaPermGranted := true,
    sharingAvailable := true,
    documentDirectory := "/docs/",
    moveFail := none,
    copyFail := none }

/-- Claim C10: `removeAt` with an index outside `[0, n-1]` (for the `Nat`
indices the UI produces, `n ≤ i`) leaves the Selection exactly unchanged —
`removeImage` is a pure total function, so no error can be raised — and with
`i < n` it removes the entry at position `i`, keeping the entries before `i`
and shifting the entries after `i` down by one, preserving their relative
order. -/
theorem removeImage_spec (l : List ImageAsset) (i : Nat) :
    (l.length ≤ i → removeImage l i = l) ∧
    (i < l.length → removeImage l i = l.take i ++ l.drop (i + 1)) := by
  constructor
  · intro h
    rw [removeImage_eq_eraseIdx]
    exact List.eraseIdx_eq_self.mpr h
  · intro _
    rw [removeImage_eq_eraseIdx]
    exact List.eraseIdx_eq_take_drop_succ l i

/-- Witness for C10: `removeAt 5` on a 2-element Selection is a no-op, and
`removeAt 1` on a 3-element Selection drops exactly the middle entry. -/
theorem removeImage_spec_witness :
    removeImage [⟨"a"⟩, ⟨"b"⟩] 5 = [⟨"a"⟩, ⟨"b"⟩] ∧
    removeImage [⟨"a"⟩, ⟨"b"⟩, ⟨"c"⟩] 1 = [⟨"a"⟩, ⟨"c"⟩] :=
  ⟨(removeImage_spec [⟨"a"⟩, ⟨"b"⟩] 5).1 (by decide),
   ((removeImage_spec [⟨"a"⟩, ⟨"b"⟩, ⟨"c"⟩] 1).2 (by decide)).trans (by decide)⟩

/-- Claim C1: while `isGenerating` is set, the Generate button is disabled
(App.js line 241), so a press — the only way `generatePDF` is invoked — is
ignored: no Byte Reader call, no Renderer call, no event at all, and the
state is unchanged.  In this single-threaded embedding every run of
`generatePDF` begins and ends within one `onGeneratePress`, so a second
generation can only start from a state with `isGenerating = true`, where this
theorem says it does not start: two generations are never in flight at
once. -/
theorem generate_reentrancy (env : Env) (st : AppState)
    (h : st.isGenerating = true) :
    onGeneratePress env st = (st, []) := by
  simp [onGeneratePress, generateButtonDisabled, h]

/-- A closed instance of C1 at a concrete in-progress state. -/
theorem generate_reentrancy_witness :
    (AppState.mk [⟨"a"⟩] "Report" true).isGenerating = true ∧
    onGeneratePress envW (AppState.mk [⟨"a"⟩] "Report" true)
      = (AppState.mk [⟨"a"⟩] "Report" true, []) :=
  ⟨rfl, generate_reentrancy envW (AppState.mk [⟨"a"⟩] "Report" true) rfl⟩

/-- Claim C8: on an empty Selection, `generatePDF` alerts "No Images" and
returns before touching `isGenerating`, the Byte Reader or the Renderer; the
whole state is returned unchanged. -/
theorem generate_empty_selection (env : Env) (st : AppState)
    (h : st.selectedImages = []) :
    generatePDF env st
        = (st, [Event.alert "No Images" "Please select at least one image."]) ∧
    (∀ img, Event.readCall img ∉ (generatePDF env st).2) ∧
    (∀ html, Event.renderCall html ∉ (generatePDF env st).2) := by
  have heq : generatePDF env st
      = (st, [Event.alert "No Images" "Please select at least one image."]) := by
    simp [generatePDF, generatePDFWith, h]
  refine ⟨heq, fun img hmem => ?_, fun html hmem => ?_⟩ <;>
    rw [heq] at hmem <;> simp at hmem

/-- A closed instance of C8 at the empty Selection. -/
theorem generate_empty_selection_witness :
    (AppState.mk [] "Report" false).selectedImages = [] ∧
    generatePDF envW (AppState.mk [] "Report" false)
      = (AppState.mk [] "Report" false,
         [Event.alert "No Images" "Please select at least one image."]) :=
  ⟨rfl, (generate_empty_selection envW (AppState.mk [] "Report" false) rfl).1⟩

/-- Claim C9: on a non-empty Selection with a name that trims to empty,
`generatePDF` alerts "PDF Name Required" and returns before `isGenerating`
is set and before any Byte Reader call or other I/O: the trace is that single
alert and the state is unchanged. -/
theorem generate_empty_name (env : Env) (st : AppState)
    (hsel : st.selectedImages ≠ []) (hname : jsTrim st.pdfName = "") :
    generatePDF env st
        = (st, [Event.alert "PDF Name Required" "Please enter a name for your PDF."]) ∧
    (∀ img, Event.readCall img ∉ (generatePDF env st).2) := by
  have hlen : ¬ st.selectedImages.length = 0 := by
    simpa [List.length_eq_zero] using hsel
  have heq : generatePDF env st
      = (st, [Event.alert "PDF Name Required" "Please enter a name for your PDF."]) := by
    simp [generatePDF, generatePDFWith, hlen, hname]
  refine ⟨heq, ?_⟩
  intro x
  rw [heq]
  simp

/-- A closed instance of C9 at a whitespace-only name. -/
theorem generate_empty_name_witness :
    (AppState.mk [⟨"a"⟩] "   " false).selectedImages ≠ [] ∧
    jsTrim (AppState.mk [⟨"a"⟩] "   " false).pdfName = "" ∧
    generatePDF envW (AppState.mk [⟨"a"⟩] "   " false)
      = (AppState.mk [⟨"a"⟩] "   " false,
         [Event.alert "PDF Name Required" "Please enter a name for your PDF."]) :=
  ⟨by decide, by decide,
   (generate_empty_name envW (AppState.mk [⟨"a"⟩] "   " false)
     (by decide) (by decide)).1⟩

/-! ### Read-loop lemmas -/

/-- The base64 strings `generatePDF` collects from a selection when every read
returns: one per image in Selection order, with the empty ones skipped. -/
def collectedB64 (reader : ImageAsset → ReadResult) (l : List ImageAsset) : List String :=
  (l.map (fun img => (reader img).b64)).filter (fun b => decide (0 < b.length))

/-- When every read in `l` returns, the read loop calls the reader once per
image in order and collects the non-empty base64 strings in order. -/
lemma readLoop_ok (reader : ImageAsset → ReadResult) (l : List ImageAsset) :
    ∀ (k : Nat),
      (∀ img ∈ l, (reader img).isOk = true) →
      readLoop reader l k = (l.map Event.readCall, .ok (collectedB64 reader l)) := by
  induction l with
  | nil => intro k _; rfl
  | cons a l ih =>
    intro k h
    have ha := h a (List.mem_cons_self a l)
    cases hra : reader a with
    | err m => rw [hra] at ha; simp [ReadResult.isOk] at ha
    | ok b =>
      have hrest := ih (k + 1) (fun img hm => h img (List.mem_cons_of_mem a hm))
      simp only [readLoop, hra, hrest, collectedB64, List.map_cons, List.filter_cons,
        ReadResult.b64]
      by_cases hb : 0 < b.length
      · simp [hb]
      · simp [hb]

/-- When the reads before position `i` return and the read at position `i`
throws, the read loop (started at absolute position `k`) calls the reader on
exactly the first `i + 1` images and aborts with position `k + i`. -/
lemma readLoop_err (reader : ImageAsset → ReadResult) (l : List ImageAsset) :
    ∀ (i k : Nat), i < l.length →
      (∀ j, j < i → (reader (l.getD j ⟨""⟩)).isOk = true) →
      (reader (l.getD i ⟨""⟩)).isOk = false →
      readLoop reader l k = ((l.take (i + 1)).map Event.readCall, .error (k + i)) := by
  induction l with
  | nil => intro i k h; simp at h
  | cons a l ih =>
    intro i k hi hpre hfail
    cases i with
    | zero =>
      have hf : (reader a).isOk = false := by simpa using hfail
      cases hra : reader a with
      | ok b => rw [hra] at hf; simp [ReadResult.isOk] at hf
      | err m => simp [readLoop, hra]
    | succ j =>
      have ha : (reader a).isOk = true := by simpa using hpre 0 (Nat.succ_pos j)
      cases hra : reader a with
      | err m => rw [hra] at ha; simp [ReadResult.isOk] at ha
      | ok b =>
        have hrec := ih j (k + 1) (by simpa using hi)
          (fun j' hj' => by simpa using hpre (j' + 1) (by omega))
          (by simpa using hfail)
        simp only [readLoop, hra, hrec, List.take_succ_cons, List.map_cons]
        have : k + 1 + j = k + (j + 1) := by omega
        rw [this]

/-- `savePDF` of App.js never calls the Renderer. -/
lemma savePDF_v1_no_render (env : Env) (st : AppState) (uri : String) :
    ((savePDF_v1 env st uri).2).countP Event.isRender = 0 := by
  obtain ⟨rd, rn, os, mp, sa, dd, mf, cf⟩ := env
  cases os <;> cases mp <;> cases mf <;> cases sa <;>
    simp [savePDF_v1, Event.isRender, List.countP_cons]

/-- Mapping `Event.readCall` over a list produces no Renderer call. -/
lemma countP_render_map_read (l : List ImageAsset) :
    (l.map Event.readCall).countP Event.isRender = 0 := by
  induction l with
  | nil => rfl
  | cons a l ih => simp [List.countP_cons, Event.isRender, ih]

/-- Claim C2: with the guards passed, if every Byte Reader call before
position `i` returns and the call at position `i` throws, `generatePDF` stops
at that read: the trace is exactly the flag set, the reader calls on
positions `0..i`, the alert whose message (`readFailMsg i`) names the ordinal
position `i + 1`, and the flag reset; the Renderer is never invoked and the
Selection (indeed everything but the flag) is unchanged. -/
theorem generate_read_failure (env : Env) (st : AppState) (i : Nat)
    (hi : i < st.selectedImages.length)
    (hname : jsTrim st.pdfName ≠ "")
    (hpre : ∀ j, j < i → (env.reader (st.selectedImages.getD j ⟨""⟩)).isOk = true)
    (hfail : (env.reader (st.selectedImages.getD i ⟨""⟩)).isOk = false) :
    generatePDF env st
        = ({ st with isGenerating := false },
           Event.setGenerating true
             :: (st.selectedImages.take (i + 1)).map Event.readCall
             ++ [Event.alert "Error" (readFailMsg i), Event.setGenerating false]) ∧
    ((generatePDF env st).2).countP Event.isRender = 0 ∧
    (generatePDF env st).1.selectedImages = st.selectedImages := by
  have h0 : ¬ st.selectedImages.length = 0 := by omega
  have hrl := readLoop_err env.reader st.selectedImages i 0 hi hpre hfail
  have heq : generatePDF env st
      = ({ st with isGenerating := false },
         Event.setGenerating true
           :: (st.selectedImages.take (i + 1)).map Event.readCall
           ++ [Event.alert "Error" (readFailMsg i), Event.setGenerating false]) := by
    simp [generatePDF, generatePDFWith, h0, hname, hrl]
  refine ⟨heq, ?_, by rw [heq]⟩
  rw [heq]
  simp [List.countP_cons, List.countP_append, Event.isRender,
    countP_render_map_read]
  intro a ha
  obtain ⟨x, -, rfl⟩ := List.mem_map.1 (List.mem_of_mem_take ha)
  rfl

/-- A concrete environment whose reader throws exactly on the asset with uri
"bad". -/
def envB : Env :=
  { envW with
    reader := fun img => if img.uri = "bad" then .err "asset not local" else .ok ("B64" ++ img.uri) }

/-- The concrete state used by the read-failure witness: the read of the
second image (position 1, ordinal 2) throws. -/
def stB : AppState :=
  { selectedImages := [⟨"a"⟩, ⟨"bad"⟩, ⟨"c"⟩], pdfName := "Report", isGenerating := false }

/-- A closed instance of C2: the second read throws, the alert names ordinal
position 2, no Renderer call, Selection unchanged. -/
theorem generate_read_failure_witness :
    1 < stB.selectedImages.length ∧
    (generatePDF envB stB
        = ({ stB with isGenerating := false },
           Event.setGenerating true
             :: (stB.selectedImages.take 2).map Event.readCall
             ++ [Event.alert "Error" (readFailMsg 1), Event.setGenerating false]) ∧
     ((generatePDF envB stB).2).countP Event.isRender = 0 ∧
     (generatePDF envB stB).1.selectedImages = stB.selectedImages) :=
  ⟨by decide,
   generate_read_failure envB stB 1 (by decide) (by decide) (by decide) (by decide)⟩

/-- Claim C7: once both guards pass, `generatePDF` sets the in-progress flag
as its first event and, on every exit path — read failure, nothing to
render, renderer failure, or success — its last event resets the flag and
the returned state has `isGenerating = false` (the `finally` block). -/
theorem generate_flag_lifecycle (env : Env) (st : AppState)
    (hsel : st.selectedImages ≠ []) (hname : jsTrim st.pdfName ≠ "") :
    (generatePDF env st).1.isGenerating = false ∧
    ∃ mid, (generatePDF env st).2
        = Event.setGenerating true :: mid ++ [Event.setGenerating false] := by
  have h0 : ¬ st.selectedImages.length = 0 := by
    simpa [List.length_eq_zero] using hsel
  rcases hrl : readLoop env.reader st.selectedImages 0 with ⟨readEvs, r⟩
  cases r with
  | error i =>
    have heq : generatePDF env st
        = ({ st with isGenerating := false },
           Event.setGenerating true :: readEvs
             ++ [Event.alert "Error" (readFailMsg i), Event.setGenerating false]) := by
      simp [generatePDF, generatePDFWith, h0, hname, hrl]
    rw [heq]
    exact ⟨rfl, readEvs ++ [Event.alert "Error" (readFailMsg i)], by simp⟩
  | ok images =>
    by_cases himg : images.length = 0
    · have heq : generatePDF env st
          = ({ st with isGenerating := false },
             Event.setGenerating true :: readEvs
               ++ [Event.alert "Error" "No images could be processed.",
                   Event.setGenerating false]) := by
        simp [generatePDF, generatePDFWith, h0, hname, hrl, himg]
      rw [heq]
      exact ⟨rfl, readEvs ++ [Event.alert "Error" "No images could be processed."], by simp⟩
    · rcases hren : env.renderer (pageHtml (imagesHtml images)) with msg | uri
      · have heq : generatePDF env st
            = ({ st with isGenerating := false },
               Event.setGenerating true :: readEvs
                 ++ [Event.renderCall (pageHtml (imagesHtml images)),
                     Event.alert "Error" ("Failed to generate PDF: " ++ msg),
                     Event.setGenerating false]) := by
          simp [generatePDF, generatePDFWith, h0, hname, hrl, himg, hren]
        rw [heq]
        exact ⟨rfl,
          readEvs ++ [Event.renderCall (pageHtml (imagesHtml images)),
            Event.alert "Error" ("Failed to generate PDF: " ++ msg)], by simp⟩
      · rcases hsv : savePDF_v1 env { st with isGenerating := true } uri with ⟨st2, saveEvs⟩
        have heq : generatePDF env st
            = ({ st2 with isGenerating := false },
               Event.setGenerating true :: readEvs
                 ++ [Event.renderCall (pageHtml (imagesHtml images))]
                 ++ saveEvs ++ [Event.setGenerating false]) := by
          simp [generatePDF, generatePDFWith, h0, hname, hrl, himg, hren, hsv]
        rw [heq]
        exact ⟨rfl,
          readEvs ++ [Event.renderCall (pageHtml (imagesHtml images))] ++ saveEvs,
          by simp⟩

/-- A closed instance of C7 on a successful run. -/
theorem generate_flag_lifecycle_witness :
    (AppState.mk [⟨"a"⟩] "Report" false).selectedImages ≠ [] ∧
    (generatePDF envW (AppState.mk [⟨"a"⟩] "Report" false)).1.isGenerating = false :=
  ⟨by decide,
   (generate_flag_lifecycle envW (AppState.mk [⟨"a"⟩] "Report" false)
      (by decide) (by decide)).1⟩

/-- When every read of the selection returns a non-empty base64 string, the
collected strings are exactly the per-image strings, one per image in
order. -/
lemma collectedB64_all_nonempty (reader : ImageAsset → ReadResult) (l : List ImageAsset)
    (h : ∀ img ∈ l, ∃ b, reader img = .ok b ∧ 0 < b.length) :
    collectedB64 reader l = l.map (fun img => (reader img).b64) := by
  unfold collectedB64
  apply List.filter_eq_self.mpr
  intro b hb
  obtain ⟨img, hmem, rfl⟩ := List.mem_map.1 hb
  obtain ⟨bb, hbb, hlen⟩ := h img hmem
  rw [hbb]
  simpa [ReadResult.b64] using hlen

/-- Claim C3: when the guards pass and every Byte Reader call returns
non-empty content, the Renderer is called exactly once, on the page template
wrapped around `imagesHtml` of the per-image base64 strings: one
embedded-image block (`imgTag`) per selected image, in Selection order, each
block carrying that image's base64 bytes; the number of blocks equals the
Selection's length. -/
theorem generate_success_markup (env : Env) (st : AppState)
    (hsel : st.selectedImages ≠ []) (hname : jsTrim st.pdfName ≠ "")
    (hread : ∀ img ∈ st.selectedImages, ∃ b, env.reader img = .ok b ∧ 0 < b.length) :
    Event.renderCall
        (pageHtml (imagesHtml (st.selectedImages.map (fun img => (env.reader img).b64))))
      ∈ (generatePDF env st).2 ∧
    ((generatePDF env st).2).countP Event.isRender = 1 ∧
    (st.selectedImages.map (fun img => (env.reader img).b64)).length
      = st.selectedImages.length := by
  have h0 : ¬ st.selectedImages.length = 0 := by
    simpa [List.length_eq_zero] using hsel
  have hok : ∀ img ∈ st.selectedImages, (env.reader img).isOk = true := by
    intro img hm
    obtain ⟨b, hb, -⟩ := hread img hm
    rw [hb]; rfl
  have hrl := readLoop_ok env.reader st.selectedImages 0 hok
  have hcoll := collectedB64_all_nonempty env.reader st.selectedImages hread
  have himg : ¬ (collectedB64 env.reader st.selectedImages).length = 0 := by
    rw [hcoll]
    simpa [List.length_eq_zero] using hsel
  rcases hren : env.renderer (pageHtml (imagesHtml (collectedB64 env.reader st.selectedImages)))
      with msg | uri
  · have heq : generatePDF env st
        = ({ st with isGenerating := false },
           Event.setGenerating true :: st.selectedImages.map Event.readCall
             ++ [Event.renderCall (pageHtml (imagesHtml (collectedB64 env.reader st.selectedImages))),
                 Event.alert "Error" ("Failed to generate PDF: " ++ msg),
                 Event.setGenerating false]) := by
      simp [generatePDF, generatePDFWith, h0, hname, hrl, himg, hren]
    rw [heq, hcoll] at *
    refine ⟨by simp, ?_, by simp⟩
    simp [List.countP_cons, List.countP_append, Event.isRender, countP_render_map_read]
  · rcases hsv : savePDF_v1 env { st with isGenerating := true } uri with ⟨st2, saveEvs⟩
    have hsave : saveEvs.countP Event.isRender = 0 := by
      have := savePDF_v1_no_render env { st with isGenerating := true } uri
      rw [hsv] at this
      exact this
    have heq : generatePDF env st
        = ({ st2 with isGenerating := false },
           Event.setGenerating true :: st.selectedImages.map Event.readCall
             ++ [Event.renderCall (pageHtml (imagesHtml (collectedB64 env.reader st.selectedImages)))]
             ++ saveEvs ++ [Event.setGenerating false]) := by
      simp [generatePDF, generatePDFWith, h0, hname, hrl, himg, hren, hsv]
    rw [heq, hcoll] at *
    refine ⟨by simp, ?_, by simp⟩
    simp [List.countP_cons, List.countP_append, Event.isRender, countP_render_map_read, hsave]

/-- A closed instance of C3: the spec scenario Selection = [A, B],
name = " Report ". -/
theorem generate_success_markup_witness :
    Event.renderCall
        (pageHtml (imagesHtml ((AppState.mk [⟨"a"⟩, ⟨"b"⟩] " Report " false).selectedImages.map
          (fun img => (envW.reader img).b64))))
      ∈ (generatePDF envW (AppState.mk [⟨"a"⟩, ⟨"b"⟩] " Report " false)).2 ∧
    ((generatePDF envW (AppState.mk [⟨"a"⟩, ⟨"b"⟩] " Report " false)).2).countP Event.isRender
      = 1 := by
  have h := generate_success_markup envW (AppState.mk [⟨"a"⟩, ⟨"b"⟩] " Report " false)
    (by decide) (by decide)
    (fun img _ => ⟨"B64" ++ img.uri, rfl, by
      have hl : ("B64" ++ img.uri).length = "B64".length + img.uri.length :=
        String.length_append _ _
      have h3 : "B64".length = 3 := rfl
      omega⟩)
  exact ⟨h.1, h.2.1⟩

/-- Claim C4: when the guards pass and no read throws, a read that returns
empty content does not fail the run: the collected strings (`collectedB64`)
skip exactly the empty ones, keeping the rest in Selection order.  When at
least one is non-empty the Renderer is invoked on those blocks — possibly
fewer than the Selection has entries — and only when every read is empty
does the run end with the "No images could be processed." alert and no
Renderer call. -/
theorem generate_skips_empty_reads (env : Env) (st : AppState)
    (hsel : st.selectedImages ≠ []) (hname : jsTrim st.pdfName ≠ "")
    (hok : ∀ img ∈ st.selectedImages, (env.reader img).isOk = true) :
    (collectedB64 env.reader st.selectedImages = [] →
       generatePDF env st
         = ({ st with isGenerating := false },
            Event.setGenerating true :: st.selectedImages.map Event.readCall
              ++ [Event.alert "Error" "No images could be processed.",
                  Event.setGenerating false])) ∧
    (collectedB64 env.reader st.selectedImages ≠ [] →
       Event.renderCall (pageHtml (imagesHtml (collectedB64 env.reader st.selectedImages)))
           ∈ (generatePDF env st).2 ∧
       (collectedB64 env.reader st.selectedImages).length ≤ st.selectedImages.length) := by
  have h0 : ¬ st.selectedImages.length = 0 := by
    simpa [List.length_eq_zero] using hsel
  have hrl := readLoop_ok env.reader st.selectedImages 0 hok
  constructor
  · intro hempty
    simp [generatePDF, generatePDFWith, h0, hname, hrl, hempty]
  · intro hne
    have himg : ¬ (collectedB64 env.reader st.selectedImages).length = 0 := by
      simpa [List.length_eq_zero] using hne
    have hlen : (collectedB64 env.reader st.selectedImages).length
        ≤ st.selectedImages.length := by
      have h1 := List.length_filter_le (fun b => decide (0 < b.length))
        (st.selectedImages.map (fun img => (env.reader img).b64))
      simpa [collectedB64] using h1
    rcases hren : env.renderer (pageHtml (imagesHtml (collectedB64 env.reader st.selectedImages)))
        with msg | uri
    · have heq : generatePDF env st
          = ({ st with isGenerating := false },
             Event.setGenerating true :: st.selectedImages.map Event.readCall
               ++ [Event.renderCall (pageHtml (imagesHtml (collectedB64 env.reader st.selectedImages))),
                   Event.alert "Error" ("Failed to generate PDF: " ++ msg),
                   Event.setGenerating false]) := by
        simp [generatePDF, generatePDFWith, h0, hname, hrl, himg, hren]
      rw [heq]
      exact ⟨by simp, hlen⟩
    · rcases hsv : savePDF_v1 env { st with isGenerating := true } uri with ⟨st2, saveEvs⟩
      have heq : generatePDF env st
          = ({ st2 with isGenerating := false },
             Event.setGenerating true :: st.selectedImages.map Event.readCall
               ++ [Event.renderCall (pageHtml (imagesHtml (collectedB64 env.reader st.selectedImages)))]
               ++ saveEvs ++ [Event.setGenerating false]) := by
        simp [generatePDF, generatePDFWith, h0, hname, hrl, himg, hren, hsv]
      rw [heq]
      exact ⟨by simp, hlen⟩

/-- A concrete environment whose reader returns empty content exactly on the
assets whose uri starts "empty". -/
def envE : Env :=
  { envW with
    reader := fun img =>
      if img.uri = "empty1" || img.uri = "empty2" then .ok "" else .ok ("B64" ++ img.uri) }

/-- A closed instance of C4: with one empty read among two, the Renderer gets
one block (fewer than the Selection's two entries); with every read empty,
the run ends in the "No images could be processed." alert. -/
theorem generate_skips_empty_reads_witness :
    (collectedB64 envE.reader [⟨"empty1"⟩, ⟨"c"⟩] = ["B64c"] ∧
     Event.renderCall (pageHtml (imagesHtml (collectedB64 envE.reader [⟨"empty1"⟩, ⟨"c"⟩])))
       ∈ (generatePDF envE (AppState.mk [⟨"empty1"⟩, ⟨"c"⟩] "Report" false)).2 ∧
     (collectedB64 envE.reader [⟨"empty1"⟩, ⟨"c"⟩]).length < 2) ∧
    generatePDF envE (AppState.mk [⟨"empty1"⟩, ⟨"empty2"⟩] "Report" false)
      = (AppState.mk [⟨"empty1"⟩, ⟨"empty2"⟩] "Report" false,
         Event.setGenerating true
           :: ([⟨"empty1"⟩, ⟨"empty2"⟩] : List ImageAsset).map Event.readCall
           ++ [Event.alert "Error" "No images could be processed.",
               Event.setGenerating false]) := by
  have h1 := (generate_skips_empty_reads envE (AppState.mk [⟨"empty1"⟩, ⟨"c"⟩] "Report" false)
    (by decide) (by decide) (by decide)).2 (by decide)
  have h2 := (generate_skips_empty_reads envE (AppState.mk [⟨"empty1"⟩, ⟨"empty2"⟩] "Report" false)
    (by decide) (by decide) (by decide)).1 (by decide)
  exact ⟨⟨by decide, h1.1, by decide⟩, h2⟩

/-- An Android environment whose media-library permission is denied inside
`savePDF`. -/
def envP : Env := { envW with os := .android, mediaPermGranted := false }

/-- An iOS environment whose share sheet is unavailable. -/
def envS : Env := { envW with sharingAvailable := false }

/-- Counterexample to C5 as stated: two failing save paths of App.js
`savePDF` end with no notice at all.  With the Android media permission
denied, the trace is just the permission request — nothing is saved and no
alert is raised; with the iOS share sheet unavailable, the file is moved
into private storage and the user is never told. -/
theorem savePDF_silent_failure_counterexample :
    savePDF_v1 envP (AppState.mk [⟨"a"⟩] "Report" false) "file:///tmp/print123.pdf"
      = (AppState.mk [⟨"a"⟩] "Report" false, [Event.requestMediaPerm]) ∧
    ((savePDF_v1 envP (AppState.mk [⟨"a"⟩] "Report" false) "file:///tmp/print123.pdf").2).countP
        Event.isAlert = 0 ∧
    savePDF_v1 envS (AppState.mk [⟨"a"⟩] "Report" false) "file:///tmp/print123.pdf"
      = (AppState.mk [⟨"a"⟩] "Report" false,
         [Event.moveFile "file:///tmp/print123.pdf" "/docs/Report.pdf"]) ∧
    ((savePDF_v1 envS (AppState.mk [⟨"a"⟩] "Report" false) "file:///tmp/print123.pdf").2).countP
        Event.isAlert = 0 := by
  refine ⟨by decide, by decide, by decide, by decide⟩

/-- Amended C5: how many user notices each `savePDF` run raises.  The
part_000 variant alerts exactly once on every path, but the App.js variant
is silent whenever the Android media permission is denied, and on iOS it
alerts only when the move throws — its success path and its
share-sheet-unavailable path raise no notice.  So not every failure is
surfaced: the Android permission denial and the iOS unavailable-share are
swallowed in App.js, in addition to the `removeAt` no-op. -/
theorem savePDF_alert_counts (env : Env) (st : AppState) (uri : String) :
    ((savePDF_v1 env st uri).2).countP Event.isAlert
        = (match env.os with
           | .android => if env.mediaPermGranted then 1 else 0
           | .ios => if env.moveFail.isSome then 1 else 0) ∧
    ((savePDF_v2 env st uri).2).countP Event.isAlert = 1 := by
  obtain ⟨rd, rn, os, mp, sa, dd, mf, cf⟩ := env
  cases os <;> cases mp <;> cases mf <;> cases cf <;> cases sa <;>
    simp [savePDF_v1, savePDF_v2, Event.isAlert, List.countP_cons]

/-- An Android environment with the media permission granted. -/
def envA : Env := { envW with os := .android, mediaPermGranted := true }

/-- Counterexample to C6 as stated: on the direct-save platform the rendered
file is added to the public area under its temporary uri — no file-system
event carries the computed name "Report.pdf", which appears only in the alert
text — and on the share-only platform the single Share Surface call carries
no content-type hint (`none`, not `some "application/pdf"`). -/
theorem place_counterexample :
    (savePDF_v1 envA (AppState.mk [⟨"a"⟩] "Report" false) "file:///tmp/print123.pdf").2
      = [Event.requestMediaPerm, Event.createAsset "file:///tmp/print123.pdf",
         Event.createAlbum "Download" "file:///tmp/print123.pdf",
         Event.alert "Success!" "PDF saved to Downloads: Report.pdf"] ∧
    ((savePDF_v1 envA (AppState.mk [⟨"a"⟩] "Report" false) "file:///tmp/print123.pdf").2).countP
        (fun e => e == Event.createAsset "Report.pdf") = 0 ∧
    (savePDF_v1 envW (AppState.mk [⟨"a"⟩] "Report" false) "file:///tmp/print123.pdf").2
      = [Event.moveFile "file:///tmp/print123.pdf" "/docs/Report.pdf",
         Event.shareCall "/docs/Report.pdf" none] ∧
    (∀ u m, Event.shareCall u m
        ∈ (savePDF_v1 envW (AppState.mk [⟨"a"⟩] "Report" false) "file:///tmp/print123.pdf").2
      → m = none) := by
  have h3 : (savePDF_v1 envW (AppState.mk [⟨"a"⟩] "Report" false) "file:///tmp/print123.pdf").2
      = [Event.moveFile "file:///tmp/print123.pdf" "/docs/Report.pdf",
         Event.shareCall "/docs/Report.pdf" none] := by decide
  refine ⟨by decide, by decide, h3, fun u m hm => ?_⟩
  rw [h3] at hm
  simp only [List.mem_cons, List.not_mem_nil, or_false] at hm
  rcases hm with h | h
  · exact Event.noConfusion h
  · simp only [Event.shareCall.injEq] at h
    exact h.2

/-- Amended C6: `savePDF` computes the target file name as
`trim(name) + ".pdf"`.  On the share-only platform it relocates the rendered
file into private storage under that name and invokes the Share Surface
exactly once — with no content-type hint in the App.js variant, and with an
`application/pdf` hint in the part_000 variant (which shares on every
platform).  On the direct-save platform it adds the rendered file to the
public "Download" album under the file's temporary uri; the computed name
appears only in the success notice. -/
theorem place_spec_amended (env : Env) (st : AppState) (uri : String) :
    (env.os = .android → env.mediaPermGranted = true →
       (savePDF_v1 env st uri).2
         = [Event.requestMediaPerm, Event.createAsset uri,
            Event.createAlbum "Download" uri,
            Event.alert "Success!"
              ("PDF saved to Downloads: " ++ (jsTrim st.pdfName ++ ".pdf"))]) ∧
    (env.os = .ios → env.moveFail = none → env.sharingAvailable = true →
       (savePDF_v1 env st uri).2
         = [Event.moveFile uri (env.documentDirectory ++ (jsTrim st.pdfName ++ ".pdf")),
            Event.shareCall (env.documentDirectory ++ (jsTrim st.pdfName ++ ".pdf")) none] ∧
       ((savePDF_v1 env st uri).2).countP Event.isShare = 1) ∧
    (env.copyFail = none → env.sharingAvailable = true →
       (savePDF_v2 env st uri).2
         = [Event.copyFile uri (env.documentDirectory ++ (jsTrim st.pdfName ++ ".pdf")),
            Event.shareCall (env.documentDirectory ++ (jsTrim st.pdfName ++ ".pdf"))
              (some "application/pdf"),
            Event.alert "✅ Success!"
              ("PDF \"" ++ (jsTrim st.pdfName ++ ".pdf")
                ++ "\" created! You can now save it to your device.")] ∧
       ((savePDF_v2 env st uri).2).countP Event.isShare = 1) := by
  obtain ⟨rd, rn, os, mp, sa, dd, mf, cf⟩ := env
  refine ⟨?_, ?_, ?_⟩
  · intro hos hmp
    cases hos
    simp only at hmp
    simp [savePDF_v1, hmp]
  · intro hos hmf hsa
    cases hos
    simp only at hmf hsa
    simp [savePDF_v1, hmf, hsa, Event.isShare, List.countP_cons]
  · intro hcf hsa
    simp only at hcf hsa
    simp [savePDF_v2, hcf, hsa, Event.isShare, List.countP_cons]

/-- A closed instance of the amended C6, covering the direct-save path, the
App.js share path and the part_000 share path with the name " Report ". -/
theorem place_spec_amended_witness :
    (savePDF_v1 envA (AppState.mk [⟨"a"⟩] " Report " false) "file:///tmp/print123.pdf").2
      = [Event.requestMediaPerm, Event.createAsset "file:///tmp/print123.pdf",
         Event.createAlbum "Download" "file:///tmp/print123.pdf",
         Event.alert "Success!" ("PDF saved to Downloads: " ++ ("Report" ++ ".pdf"))] ∧
    (savePDF_v1 envW (AppState.mk [⟨"a"⟩] " Report " false) "file:///tmp/print123.pdf").2
      = [Event.moveFile "file:///tmp/print123.pdf" ("/docs/" ++ ("Report" ++ ".pdf")),
         Event.shareCall ("/docs/" ++ ("Report" ++ ".pdf")) none] ∧
    (savePDF_v2 envW (AppState.mk [⟨"a"⟩] " Report " false) "file:///tmp/print123.pdf").2
      = [Event.copyFile "file:///tmp/print123.pdf" ("/docs/" ++ ("Report" ++ ".pdf")),
         Event.shareCall ("/docs/" ++ ("Report" ++ ".pdf")) (some "application/pdf"),
         Event.alert "✅ Success!"
           ("PDF \"" ++ ("Report" ++ ".pdf") ++ "\" created! You can now save it to your device.")] := by
  have hA := (place_spec_amended envA (AppState.mk [⟨"a"⟩] " Report " false)
    "file:///tmp/print123.pdf").1 rfl rfl
  have hI := ((place_spec_amended envW (AppState.mk [⟨"a"⟩] " Report " false)
    "file:///tmp/print123.pdf").2.1 rfl rfl rfl).1
  have hII := ((place_spec_amended envW (AppState.mk [⟨"a"⟩] " Report " false)
    "file:///tmp/print123.pdf").2.2 rfl rfl).1
  refine ⟨?_, ?_, ?_⟩
  · rw [hA]; decide
  · rw [hI]; decide
  · rw [hII]; decide
